import Mathlib

/-
Verification of the MCP client engine (McpHub and its notification handlers)
against its natural-language specification.

The development shallowly embeds the hub's state and its operations:
the per-hub mutable maps (activeProgressTokens, pendingRequests, activeTasks,
resourceSubscriptions), the connection registry (connections list with its
discriminated connected/disconnected kinds), and the operations
connectToServer, deleteConnection, updateServerConnections, restartConnection,
dispose, callToolAsTask, getTask, getTaskResult, cancelTask,
pollTaskUntilComplete, and the inbound notification handlers for progress,
cancellation and task status.

External collaborators (the SDK client, transports, the webview provider,
timers) are modelled as inputs: a remote round trip is an explicit
RemoteOutcome argument, observable side effects (transport close, abort of a
pending request, console warnings, callback invocations) are recorded in an
effect trace, and the wall clock is an explicit argument. JavaScript Map
objects are embedded as association lists with the Map get/set/delete
semantics.
-/

namespace RooMcp

/-- Association-list lookup, mirroring JavaScript Map.get. -/
def mget {α β : Type} [DecidableEq α] : List (α × β) → α → Option β
  | [], _ => none
  | (a, b) :: rest, k => if a = k then some b else mget rest k

/-- Association-list update, mirroring JavaScript Map.set: replaces the value
in place when the key is present, otherwise appends the new binding. -/
def mset {α β : Type} [DecidableEq α] : List (α × β) → α → β → List (α × β)
  | [], k, v => [(k, v)]
  | (a, b) :: rest, k, v => if a = k then (a, v) :: rest else (a, b) :: mset rest k v

/-- Association-list removal, mirroring JavaScript Map.delete. -/
def mdel {α β : Type} [DecidableEq α] (m : List (α × β)) (k : α) : List (α × β) :=
  m.filter (fun p => decide ¬(p.1 = k))

/-- The logical namespace of a server configuration entry. -/
inductive Source where
  | global
  | project
deriving DecidableEq, Repr

/-- A JavaScript string-or-number key, as used for progress tokens and
request (correlation) ids. -/
inductive JsKey where
  | str (s : String)
  | num (n : Int)
deriving DecidableEq, Repr

/-- Task status values of the task state machine. -/
inductive TaskStatus where
  | working
  | inputRequired
  | completed
  | failed
  | cancelled
deriving DecidableEq, Repr

/-- Whether a task status is terminal (completed, failed or cancelled). -/
def TaskStatus.isTerminal : TaskStatus → Bool
  | .completed => true
  | .failed => true
  | .cancelled => true
  | _ => false

/-- Connection status of a registry entry. -/
inductive ConnStatus where
  | connecting
  | connected
  | disconnected
deriving DecidableEq, Repr

/-- Severity tag of an error-history entry. -/
inductive LogLevel where
  | info
  | warn
  | error
deriving DecidableEq, Repr

/-- One entry of a connection's bounded error history. -/
structure ErrorEntry where
  message : String
  timestamp : Int
  level : LogLevel
deriving DecidableEq, Repr

/-- The validated server configuration, reduced to the one field the embedded
operations inspect (the disabled flag; transport parameters are opaque to the
claims under verification). -/
structure ServerConfig where
  disabled : Option Bool
deriving DecidableEq, Repr

/-- The server record of a registry entry (McpServer). -/
structure McpServer where
  name : String
  config : ServerConfig
  status : ConnStatus
  disabled : Option Bool
  source : Source
  errorHistory : List ErrorEntry
  error : String
deriving DecidableEq, Repr

/-- The discriminated part of a connection: a connected entry holds the
transport (identified by a numeric handle) and the peer capabilities
negotiated by the SDK client; a disconnected placeholder holds neither
(client and transport are null in the source). -/
inductive ConnKind where
  | connected (transportId : Nat) (tasksCapability : Bool)
  | disconnected
deriving DecidableEq, Repr

/-- A registry entry (McpConnection). -/
structure McpConnection where
  kind : ConnKind
  server : McpServer
deriving DecidableEq, Repr

/-- Value of the activeProgressTokens map: owning server, whether a callback
observer is registered, and the last observed progress value. -/
structure ProgressTokenData where
  serverName : String
  hasCallback : Bool
  lastProgress : Int
deriving DecidableEq, Repr

/-- Value of the pendingRequests map (the AbortController is modelled through
the abort effect in the trace). -/
structure PendingRequestData where
  serverName : String
deriving DecidableEq, Repr

/-- Value of the activeTasks map. -/
structure TaskData where
  serverName : String
  source : Option Source
  status : TaskStatus
  progressToken : Option JsKey
  pollInterval : Option Int
  message : Option String
  createdAt : Int
  updatedAt : Int
deriving DecidableEq, Repr

/-- The per-hub mutable state of McpHub. The provider weak reference is
modelled by the providerAlive flag; VS Code watchers and debounce timers are
outside the claims and the fileWatchers map is reduced to its key set. -/
structure HubState where
  connections : List McpConnection
  activeProgressTokens : List (JsKey × ProgressTokenData)
  pendingRequests : List (JsKey × PendingRequestData)
  activeTasks : List (String × TaskData)
  resourceSubscriptions : List (String × List String)
  fileWatchers : List String
  sanitizedNameRegistry : List (String × String)
  isDisposed : Bool
  providerAlive : Bool
deriving DecidableEq, Repr

/-- Observable side effects of the embedded operations. Console messages are
recorded by severity only (their interpolated text is not load-bearing). -/
inductive Effect where
  | warnLog
  | debugLog
  | infoLog
  | progressCallback (progress : Int) (total : Option Int) (message : Option String)
  | abortRequest (rid : JsKey) (reason : Option String)
  | acquireTransport (tid : Nat)
  | closeTransport (tid : Nat)
  | postToWebview
  | showError
  | remoteCall (method : String)
  | statusChange (status : TaskStatus) (message : Option String)
deriving DecidableEq, Repr

/-- Whether an effect is a transport close. -/
def Effect.isCloseTransport : Effect → Bool
  | .closeTransport _ => true
  | _ => false

/-- Whether an effect is an abort of a pending request. -/
def Effect.isAbortRequest : Effect → Bool
  | .abortRequest _ _ => true
  | _ => false

/-- Whether an effect is an observer (progress callback) invocation. -/
def Effect.isProgressCallback : Effect → Bool
  | .progressCallback _ _ _ => true
  | _ => false

/-- Payload of an inbound notifications/progress message. -/
structure ProgressEvent where
  progressToken : JsKey
  progress : Int
  total : Option Int
  message : Option String
deriving DecidableEq, Repr

/-- The notifications/progress handler registered in connectToServer: on an
unknown token nothing happens; on a known token a non-monotonic value logs a
warning, the stored last progress is overwritten with the reported value, the
registered callback (if any) receives the raw reported values, and the update
is forwarded to the webview when the provider is alive. -/
def handleProgressNotification (s : HubState) (ev : ProgressEvent) : HubState × List Effect :=
  match mget s.activeProgressTokens ev.progressToken with
  | none => (s, [])
  | some tokenData =>
      let warnEffs : List Effect :=
        if ev.progress < tokenData.lastProgress then [Effect.warnLog] else []
      let tokens1 :=
        mset s.activeProgressTokens ev.progressToken
          { tokenData with lastProgress := ev.progress }
      let s1 : HubState := { s with activeProgressTokens := tokens1 }
      let cbEffs : List Effect :=
        if tokenData.hasCallback then
          [Effect.progressCallback ev.progress ev.total ev.message]
        else []
      let postEffs : List Effect := if s.providerAlive then [Effect.postToWebview] else []
      (s1, warnEffs ++ cbEffs ++ postEffs)

/-- Payload of an inbound notifications/cancelled message (the requestId is
required by the protocol but the SDK types are loose, hence the Option). -/
structure CancelledEvent where
  requestId : Option JsKey
  reason : Option String
deriving DecidableEq, Repr

/-- The notifications/cancelled handler registered in connectToServer: a
missing requestId logs a warning; a known pending request is aborted and
removed from tracking; an unknown or already-completed id is ignored with a
debug log and no state change. -/
def handleCancelledNotification (s : HubState) (ev : CancelledEvent) : HubState × List Effect :=
  match ev.requestId with
  | none => (s, [Effect.warnLog])
  | some rid =>
      match mget s.pendingRequests rid with
      | some _ =>
          ({ s with pendingRequests := mdel s.pendingRequests rid },
           [Effect.infoLog, Effect.abortRequest rid ev.reason])
      | none => (s, [Effect.debugLog])

/-- Payload of an inbound notifications/tasks/status message. -/
structure TaskStatusEvent where
  taskId : String
  status : TaskStatus
  statusMessage : Option String
  pollInterval : Option Int
deriving DecidableEq, Repr

/-- The notifications/tasks/status handler registered in connectToServer: on a
tracked task the stored status, message and (when present) poll interval are
overwritten with the notified values and the update timestamp refreshed; an
unknown task id only logs a debug message. -/
def handleTaskStatusNotification (s : HubState) (now : Int) (ev : TaskStatusEvent) :
    HubState × List Effect :=
  match mget s.activeTasks ev.taskId with
  | some td =>
      let td1 : TaskData :=
        { td with
          status := ev.status
          message := ev.statusMessage
          pollInterval := (match ev.pollInterval with
            | some p => some p
            | none => td.pollInterval)
          updatedAt := now }
      ({ s with activeTasks := mset s.activeTasks ev.taskId td1 },
       if s.providerAlive then [Effect.postToWebview] else [])
  | none => (s, [Effect.debugLog])

/-- generateProgressToken: registers a freshly generated token (the UUID is an
explicit argument) with last progress 0. -/
def generateProgressToken (s : HubState) (serverName : String) (hasCallback : Bool)
    (token : String) : HubState :=
  let tokens1 :=
    mset s.activeProgressTokens (JsKey.str token)
      { serverName := serverName, hasCallback := hasCallback, lastProgress := 0 }
  { s with activeProgressTokens := tokens1 }

/-- clearProgressToken: removes a token from tracking. -/
def clearProgressToken (s : HubState) (token : JsKey) : HubState :=
  { s with activeProgressTokens := mdel s.activeProgressTokens token }

/-- Whether a connection matches a (name, source) pair. -/
def connMatches (name : String) (src : Source) (c : McpConnection) : Bool :=
  decide (c.server.name = name ∧ c.server.source = src)

/-- findConnection: with a source, the first connection matching name and
source; without one, project connections take priority over global ones. -/
def findConnection (conns : List McpConnection) (name : String) (source : Option Source) :
    Option McpConnection :=
  match source with
  | some src => conns.find? (connMatches name src)
  | none =>
      match conns.find? (connMatches name Source.project) with
      | some c => some c
      | none => conns.find? (connMatches name Source.global)

/-- removeFileWatchersForServer: closes and drops the file watchers of one
server (watcher handles reduced to the key set). -/
def removeFileWatchersForServer (s : HubState) (name : String) : HubState :=
  { s with fileWatchers := s.fileWatchers.filter (fun n => decide ¬(n = name)) }

/-- The keep-predicate of the deleteConnection removal filter: an entry stays
when its name differs, or when a source was given and its source differs. -/
def deleteKeep (name : String) (source : Option Source) (c : McpConnection) : Bool :=
  if c.server.name = name then
    match source with
    | some src => decide ¬(c.server.source = src)
    | none => false
  else true

/-- deleteConnection: removes this server's file watchers, closes the
transport and client of every matching connected entry, removes the matching
entries from the registry, and drops the sanitized-name registry entry when no
connection with that name remains. The sanitizer is an external utility passed
as a function argument. -/
def deleteConnection (sanitize : String → String) (s : HubState) (name : String)
    (source : Option Source) : HubState × List Effect :=
  let s0 := removeFileWatchersForServer s name
  let targets := s0.connections.filter (fun c => !(deleteKeep name source c))
  let closeEffs : List Effect := targets.filterMap (fun c =>
    match c.kind with
    | ConnKind.connected tid _ => some (Effect.closeTransport tid)
    | ConnKind.disconnected => none)
  let conns2 := s0.connections.filter (deleteKeep name source)
  let remaining := conns2.filter (fun c => decide (c.server.name = name))
  let reg2 :=
    if remaining.isEmpty then mdel s0.sanitizedNameRegistry (sanitize name)
    else s0.sanitizedNameRegistry
  ({ s0 with connections := conns2, sanitizedNameRegistry := reg2 }, closeEffs)

/-- The truncation applied to every recorded error message (1000 characters). -/
def truncateError (msg : String) : String :=
  if msg.length > 1000 then msg.take 1000 ++ "...(error message truncated)" else msg

/-- appendErrorMessage: truncates the message to 1000 characters, appends a
tagged entry to the (ring-buffered, capacity 100) error history and updates
the current error display. -/
def appendErrorMessage (server : McpServer) (msg : String) (level : LogLevel) (now : Int) :
    McpServer :=
  let truncated := truncateError msg
  let hist := server.errorHistory ++ [{ message := truncated, timestamp := now, level := level }]
  let hist2 := if hist.length > 100 then hist.drop (hist.length - 100) else hist
  { server with errorHistory := hist2, error := truncated }

/-- Replace the first element satisfying the predicate, mirroring an in-place
mutation of the object findConnection returned. -/
def updateFirst {α : Type} (p : α → Bool) (f : α → α) : List α → List α
  | [] => []
  | x :: xs => if p x then f x :: xs else x :: updateFirst p f xs

/-- setupFileWatcher: ensures a watcher entry for this server exists (the
watchers themselves depend on the stdio configuration and are opaque here). -/
def setupFileWatcher (s : HubState) (name : String) : HubState :=
  if s.fileWatchers.contains name then s
  else { s with fileWatchers := s.fileWatchers ++ [name] }

/-- The environment of one connect attempt: the global MCP-enabled setting,
whether transport (and client) construction succeeds, the acquired transport
handle, the outcome of the SDK handshake (client.connect), and the task
capability the peer declares. -/
structure ConnectEnv where
  mcpEnabled : Bool
  transportOk : Bool
  transportId : Nat
  connectErr : Option String
  tasksCapability : Bool
deriving DecidableEq, Repr

/-- Result of an operation that can throw: the state left behind, the effect
trace, and the thrown error if any. -/
structure OpResult where
  state : HubState
  effects : List Effect
  thrown : Option String
deriving DecidableEq, Repr

/-- createPlaceholderConnection: a disconnected entry without client or
transport, so disabled servers remain listable. -/
def mkPlaceholderConn (name : String) (cfg : ServerConfig) (source : Source)
    (disabled : Option Bool) : McpConnection :=
  { kind := ConnKind.disconnected
    server :=
      { name := name, config := cfg, status := ConnStatus.disconnected, disabled := disabled,
        source := source, errorHistory := [], error := "" } }

/-- connectToServer: deletes any existing connection with the same (name,
source) key, registers the sanitized name, inserts a placeholder when MCP is
globally disabled or the server is disabled, otherwise acquires a transport
and performs the handshake. On handshake failure the catch block marks the
entry disconnected and appends the error to its history, then rethrows; it
does not close the transport. On transport-construction failure no entry has
been inserted yet, so the catch block finds nothing and only rethrows. The
initial tool/resource/prompt list fetches swallow their own errors and cannot
reach the catch block; the fetched lists are outside this embedding. -/
def connectToServer (sanitize : String → String) (s : HubState) (name : String)
    (cfg : ServerConfig) (source : Source) (env : ConnectEnv) (now : Int) : OpResult :=
  let del := deleteConnection sanitize s name (some source)
  let s1 := del.1
  let effs1 := del.2
  let reg1 := mset s1.sanitizedNameRegistry (sanitize name) name
  let s2 : HubState := { s1 with sanitizedNameRegistry := reg1 }
  if env.mcpEnabled = false then
    let conns := s2.connections ++ [mkPlaceholderConn name cfg source cfg.disabled]
    { state := { s2 with connections := conns }, effects := effs1, thrown := none }
  else if cfg.disabled = some true then
    let conns := s2.connections ++ [mkPlaceholderConn name cfg source (some true)]
    { state := { s2 with connections := conns }, effects := effs1, thrown := none }
  else
    let s3 := setupFileWatcher s2 name
    if env.transportOk = false then
      { state := s3, effects := effs1, thrown := some "transport construction failed" }
    else
      let newConn : McpConnection :=
        { kind := ConnKind.connected env.transportId env.tasksCapability
          server :=
            { name := name, config := cfg, status := ConnStatus.connecting,
              disabled := cfg.disabled, source := source, errorHistory := [], error := "" } }
      let s4 : HubState := { s3 with connections := s3.connections ++ [newConn] }
      match env.connectErr with
      | some e =>
          let onCatch : McpConnection → McpConnection := fun c =>
            let srv1 := { c.server with status := ConnStatus.disconnected }
            { c with server := appendErrorMessage srv1 e LogLevel.error now }
          let conns5 := updateFirst (connMatches name source) onCatch s4.connections
          { state := { s4 with connections := conns5 },
            effects := effs1 ++ [Effect.acquireTransport env.transportId], thrown := some e }
      | none =>
          let okConn : McpConnection :=
            { newConn with server :=
                { newConn.server with status := ConnStatus.connected, error := "" } }
          { state := { s3 with connections := s3.connections ++ [okConn] },
            effects := effs1 ++ [Effect.acquireTransport env.transportId], thrown := none }

/-- One entry of the new configuration handed to updateServerConnections,
with the outcome of validating it and the environment its (re)connect attempt
would see. -/
structure UpdateEntry where
  name : String
  cfg : ServerConfig
  valid : Bool
  env : ConnectEnv
deriving DecidableEq, Repr

/-- removeAllFileWatchers. -/
def removeAllFileWatchers (s : HubState) : HubState :=
  { s with fileWatchers := [] }

/-- One iteration of the update-or-add loop of updateServerConnections:
invalid configurations are reported and skipped; a new server is connected;
an existing server with a changed configuration is deleted and reconnected;
an unchanged server is left alone. Connect errors are caught and reported. -/
def updateStep (sanitize : String → String) (source : Source) (now : Int)
    (acc : HubState × List Effect) (e : UpdateEntry) : HubState × List Effect :=
  let s := acc.1
  if e.valid = false then (s, acc.2 ++ [Effect.showError])
  else
    match findConnection s.connections e.name (some source) with
    | none =>
        let s1 := if e.cfg.disabled = some true then s else setupFileWatcher s e.name
        let r := connectToServer sanitize s1 e.name e.cfg source e.env now
        (r.state, acc.2 ++ r.effects ++
          (match r.thrown with | some _ => [Effect.showError] | none => []))
    | some conn =>
        if conn.server.config = e.cfg then (s, acc.2)
        else
          let s1 := if e.cfg.disabled = some true then s else setupFileWatcher s e.name
          let del := deleteConnection sanitize s1 e.name (some source)
          let r := connectToServer sanitize del.1 e.name e.cfg source e.env now
          (r.state, acc.2 ++ del.2 ++ r.effects ++
            (match r.thrown with | some _ => [Effect.showError] | none => []))

/-- One iteration of the removal loop of updateServerConnections: a current
server name absent from the new configuration is deleted. -/
def updateDelStep (sanitize : String → String) (source : Source) (newNames : List String)
    (acc : HubState × List Effect) (n : String) : HubState × List Effect :=
  if newNames.contains n then acc
  else
    let r := deleteConnection sanitize acc.1 n (some source)
    (r.1, acc.2 ++ r.2)

/-- updateServerConnections: removes all file watchers, deletes the servers of
this source that are absent from the new configuration, then updates or adds
each configured server in order. -/
def updateServerConnections (sanitize : String → String) (s : HubState)
    (entries : List UpdateEntry) (source : Source) (now : Int) : HubState × List Effect :=
  let s0 := removeAllFileWatchers s
  let current := s0.connections.filter (fun c => decide (c.server.source = source))
  let currentNames := (current.map (fun c => c.server.name)).eraseDups
  let newNames := entries.map (fun e => e.name)
  let afterDel := currentNames.foldl (updateDelStep sanitize source newNames) (s0, [])
  entries.foldl (updateStep sanitize source now) afterDel

/-- restartConnection: with MCP enabled and the connection present, marks it
connecting, deletes it and reconnects it from its stored configuration
(validation outcome and connect environment are explicit inputs); validation
and connect errors are caught and reported. -/
def restartConnection (sanitize : String → String) (s : HubState) (serverName : String)
    (source : Option Source) (mcpEnabled : Bool) (validateOk : Bool) (env : ConnectEnv)
    (now : Int) : HubState × List Effect :=
  if mcpEnabled = false then (s, [])
  else
    match findConnection s.connections serverName source with
    | none => (s, [])
    | some conn =>
        let restarting : McpConnection → McpConnection := fun c =>
          { c with server := { c.server with status := ConnStatus.connecting, error := "" } }
        let conns1 := updateFirst (fun c => decide (c = conn)) restarting s.connections
        let s1 : HubState := { s with connections := conns1 }
        let del := deleteConnection sanitize s1 serverName (some conn.server.source)
        if validateOk = false then (del.1, del.2 ++ [Effect.showError])
        else
          let r := connectToServer sanitize del.1 serverName conn.server.config
            conn.server.source env now
          (r.state, del.2 ++ r.effects ++
            (match r.thrown with | some _ => [Effect.showError] | none => []))

/-- One iteration of the teardown loop of dispose: deletes one connection of
the list captured at loop start. -/
def disposeStep (sanitize : String → String) (acc : HubState × List Effect)
    (c : McpConnection) : HubState × List Effect :=
  let r := deleteConnection sanitize acc.1 c.server.name (some c.server.source)
  (r.1, acc.2 ++ r.2)

/-- dispose: guarded by the isDisposed flag, so only the first call acts. It
clears the progress-token, pending-request, task and subscription maps, clears
timers and file watchers, deletes every connection of the list captured at
loop start, and empties the registry. -/
def dispose (sanitize : String → String) (s : HubState) : HubState × List Effect :=
  if s.isDisposed then (s, [])
  else
    let s1 : HubState :=
      { s with
        isDisposed := true
        activeProgressTokens := []
        pendingRequests := []
        activeTasks := []
        resourceSubscriptions := []
        fileWatchers := [] }
    let folded := s.connections.foldl (disposeStep sanitize) (s1, [])
    ({ folded.1 with connections := [] }, folded.2)

/-- The outcome of a remote round trip through the SDK client: the parsed
reply, or the error the request rejected with. -/
inductive RemoteOutcome (α : Type) where
  | ok (a : α)
  | err (e : String)
deriving DecidableEq, Repr

/-- A wire task descriptor. -/
structure TaskDescriptor where
  taskId : String
  status : TaskStatus
  statusMessage : Option String
  pollInterval : Option Int
  ttl : Option Int
deriving DecidableEq, Repr

/-- The raw result of a tools/call round trip, as callToolAsTask inspects it:
the CreateTaskResult parse either yields a task descriptor or does not, and
the raw payload doubles as the plain tool result. -/
structure RawCallResult where
  task : Option TaskDescriptor
  payload : String
deriving DecidableEq, Repr

/-- What callToolAsTask returns: a task handle or a plain result. -/
inductive CallToolReply where
  | task (taskId : String) (pollInterval : Option Int)
  | result (r : String)
deriving DecidableEq, Repr

/-- callToolAsTask: requires a connection with a live client; when the peer
declared no task capability the call falls back to a plain tools/call and no
task or progress token is created. Otherwise a progress token is generated
when a progress callback was supplied (the fresh UUID is the newToken
argument), the task-augmented call is made, a returned task descriptor is
registered in the active-task map, a plain result clears the token, and a
thrown request clears the token and rethrows. -/
def callToolAsTask (s : HubState) (serverName : String) (source : Option Source)
    (hasProgressCallback : Bool) (newToken : String) (now : Int)
    (remote : RemoteOutcome RawCallResult) : OpResult × Option CallToolReply :=
  match findConnection s.connections serverName source with
  | none => ({ state := s, effects := [], thrown := some "server not connected" }, none)
  | some conn =>
      match conn.kind with
      | ConnKind.disconnected =>
          ({ state := s, effects := [], thrown := some "server not connected" }, none)
      | ConnKind.connected _ tasksCap =>
          if tasksCap = false then
            match remote with
            | RemoteOutcome.err e =>
                ({ state := s, effects := [Effect.remoteCall "tools/call"], thrown := some e },
                 none)
            | RemoteOutcome.ok raw =>
                ({ state := s, effects := [Effect.remoteCall "tools/call"], thrown := none },
                 some (CallToolReply.result raw.payload))
          else
            let sTok :=
              if hasProgressCallback then generateProgressToken s serverName true newToken
              else s
            match remote with
            | RemoteOutcome.err e =>
                let sClear :=
                  if hasProgressCallback then clearProgressToken sTok (JsKey.str newToken)
                  else sTok
                ({ state := sClear, effects := [Effect.remoteCall "tools/call"],
                   thrown := some e }, none)
            | RemoteOutcome.ok raw =>
                match raw.task with
                | some t =>
                    let td : TaskData :=
                      { serverName := serverName, source := source, status := t.status,
                        progressToken :=
                          (if hasProgressCallback then some (JsKey.str newToken) else none),
                        pollInterval := t.pollInterval, message := t.statusMessage,
                        createdAt := now, updatedAt := now }
                    let tasks1 := mset sTok.activeTasks t.taskId td
                    ({ state := { sTok with activeTasks := tasks1 },
                       effects := [Effect.remoteCall "tools/call"], thrown := none },
                     some (CallToolReply.task t.taskId t.pollInterval))
                | none =>
                    let sClear :=
                      if hasProgressCallback then clearProgressToken sTok (JsKey.str newToken)
                      else sTok
                    ({ state := sClear, effects := [Effect.remoteCall "tools/call"],
                       thrown := none }, some (CallToolReply.result raw.payload))

/-- The parsed reply of tasks/get and tasks/cancel. -/
structure GetTaskReply where
  task : Option TaskDescriptor
deriving DecidableEq, Repr

/-- getTask: requires a live client, performs a tasks/get round trip and, when
the task is locally tracked and the reply carries a descriptor, overwrites the
stored status, message and poll interval with the replied values. -/
def getTask (s : HubState) (serverName : String) (taskId : String) (source : Option Source)
    (now : Int) (remote : RemoteOutcome GetTaskReply) : OpResult × Option GetTaskReply :=
  match findConnection s.connections serverName source with
  | none => ({ state := s, effects := [], thrown := some "server not connected" }, none)
  | some conn =>
      match conn.kind with
      | ConnKind.disconnected =>
          ({ state := s, effects := [], thrown := some "server not connected" }, none)
      | ConnKind.connected _ _ =>
          match remote with
          | RemoteOutcome.err e =>
              ({ state := s, effects := [Effect.remoteCall "tasks/get"], thrown := some e },
               none)
          | RemoteOutcome.ok reply =>
              let s1 :=
                match mget s.activeTasks taskId, reply.task with
                | some td, some t =>
                    let td1 : TaskData :=
                      { td with
                        status := t.status
                        message := t.statusMessage
                        pollInterval := t.pollInterval
                        updatedAt := now }
                    { s with activeTasks := mset s.activeTasks taskId td1 }
                | _, _ => s
              ({ state := s1, effects := [Effect.remoteCall "tasks/get"], thrown := none },
               some reply)

/-- getTaskResult: requires a live client, performs a tasks/result round trip
and on success releases the progress token of the tracked task (if any) and
removes the task from tracking. -/
def getTaskResult (s : HubState) (serverName : String) (taskId : String)
    (source : Option Source) (remote : RemoteOutcome String) : OpResult × Option String :=
  match findConnection s.connections serverName source with
  | none => ({ state := s, effects := [], thrown := some "server not connected" }, none)
  | some conn =>
      match conn.kind with
      | ConnKind.disconnected =>
          ({ state := s, effects := [], thrown := some "server not connected" }, none)
      | ConnKind.connected _ _ =>
          match remote with
          | RemoteOutcome.err e =>
              ({ state := s, effects := [Effect.remoteCall "tasks/result"], thrown := some e },
               none)
          | RemoteOutcome.ok r =>
              let s1 :=
                match mget s.activeTasks taskId with
                | some td =>
                    match td.progressToken with
                    | some tok => clearProgressToken s tok
                    | none => s
                | none => s
              let s2 : HubState := { s1 with activeTasks := mdel s1.activeTasks taskId }
              ({ state := s2, effects := [Effect.remoteCall "tasks/result"], thrown := none },
               some r)

/-- cancelTask: requires a live client, performs a tasks/cancel round trip and
on success marks the locally tracked record cancelled, whatever its stored
status was. -/
def cancelTask (s : HubState) (serverName : String) (taskId : String)
    (source : Option Source) (now : Int) (remote : RemoteOutcome GetTaskReply) :
    OpResult × Option GetTaskReply :=
  match findConnection s.connections serverName source with
  | none => ({ state := s, effects := [], thrown := some "server not connected" }, none)
  | some conn =>
      match conn.kind with
      | ConnKind.disconnected =>
          ({ state := s, effects := [], thrown := some "server not connected" }, none)
      | ConnKind.connected _ _ =>
          match remote with
          | RemoteOutcome.err e =>
              ({ state := s, effects := [Effect.remoteCall "tasks/cancel"], thrown := some e },
               none)
          | RemoteOutcome.ok reply =>
              let s1 :=
                match mget s.activeTasks taskId with
                | some td =>
                    let td1 : TaskData :=
                      { td with status := TaskStatus.cancelled, updatedAt := now }
                    { s with activeTasks := mset s.activeTasks taskId td1 }
                | none => s
              ({ state := s1, effects := [Effect.remoteCall "tasks/cancel"], thrown := none },
               some reply)

/-- pollTaskUntilComplete: repeatedly gets the task status; a missing
descriptor is a distinct task-not-found error, completed fetches the deferred
result through getTaskResult, failed and cancelled are surfaced as errors, and
non-terminal statuses continue polling. The poll loop consumes one remote
outcome per iteration; the exhausted list models the timeout expiring. -/
def pollTaskUntilComplete (s : HubState) (serverName : String) (taskId : String)
    (source : Option Source) (now : Int) (hasStatusCallback : Bool)
    (polls : List (RemoteOutcome GetTaskReply)) (resultRemote : RemoteOutcome String) :
    OpResult × Option String :=
  match polls with
  | [] => ({ state := s, effects := [], thrown := some "task timed out" }, none)
  | p :: rest =>
      let g := getTask s serverName taskId source now p
      match g.2 with
      | none => (g.1, none)
      | some reply =>
          match reply.task with
          | none =>
              ({ state := g.1.state, effects := g.1.effects, thrown := some "task not found" },
               none)
          | some t =>
              let cbEffs : List Effect :=
                if hasStatusCallback then [Effect.statusChange t.status t.statusMessage]
                else []
              match t.status with
              | TaskStatus.completed =>
                  let r := getTaskResult g.1.state serverName taskId source resultRemote
                  ({ state := r.1.state, effects := g.1.effects ++ cbEffs ++ r.1.effects,
                     thrown := r.1.thrown }, r.2)
              | TaskStatus.failed =>
                  ({ state := g.1.state, effects := g.1.effects ++ cbEffs,
                     thrown := some "task failed" }, none)
              | TaskStatus.cancelled =>
                  ({ state := g.1.state, effects := g.1.effects ++ cbEffs,
                     thrown := some "task was cancelled" }, none)
              | _ =>
                  let r := pollTaskUntilComplete g.1.state serverName taskId source now
                    hasStatusCallback rest resultRemote
                  ({ state := r.1.state, effects := g.1.effects ++ cbEffs ++ r.1.effects,
                     thrown := r.1.thrown }, r.2)

/-- Modelled from the spec: the receiver-role Task Coordinator is not part of
the repository sources (only the initiator-side client is); per the spec, a
receiver-role task record carries a status, a creation time and an optional
time-to-live. -/
structure ReceiverTask where
  status : TaskStatus
  createdAt : Int
  ttl : Option Int
deriving DecidableEq, Repr

/-- Modelled from the spec: the distinct task errors of the receiver role
(task-not-found and invalid-task-transition are never collapsed into a
generic failure). -/
inductive ReceiverErr where
  | taskNotFound
  | invalidTaskTransition
deriving DecidableEq, Repr

/-- Modelled from the spec: a record whose time-to-live has elapsed has been
purged by the TTL timer, independent of its terminal status. -/
def receiverExpired (t : ReceiverTask) (now : Int) : Bool :=
  match t.ttl with
  | some d => decide (t.createdAt + d < now)
  | none => false

/-- Modelled from the spec: lookup in the receiver-role task store at a given
time; a purged record is gone. -/
def receiverLookup (store : List (String × ReceiverTask)) (now : Int) (taskId : String) :
    Option ReceiverTask :=
  match mget store taskId with
  | none => none
  | some t => if receiverExpired t now then none else some t

/-- Modelled from the spec: the receiver-role get operation; after the TTL
purge it fails with the distinct task-not-found error. -/
def receiverGet (store : List (String × ReceiverTask)) (now : Int) (taskId : String) :
    Except ReceiverErr ReceiverTask :=
  match receiverLookup store now taskId with
  | none => Except.error ReceiverErr.taskNotFound
  | some t => Except.ok t

/-- Modelled from the spec: the receiver-role result operation; after the TTL
purge it fails with the distinct task-not-found error. -/
def receiverResult (store : List (String × ReceiverTask)) (now : Int) (taskId : String) :
    Except ReceiverErr TaskStatus :=
  match receiverLookup store now taskId with
  | none => Except.error ReceiverErr.taskNotFound
  | some t => Except.ok t.status

/-- Modelled from the spec: the receiver-role cancel operation; after the TTL
purge it fails with the distinct task-not-found error, and on an
already-terminal record with the distinct invalid-task-transition error. -/
def receiverCancel (store : List (String × ReceiverTask)) (now : Int) (taskId : String) :
    Except ReceiverErr (List (String × ReceiverTask)) :=
  match receiverLookup store now taskId with
  | none => Except.error ReceiverErr.taskNotFound
  | some t =>
      if t.status.isTerminal then Except.error ReceiverErr.invalidTaskTransition
      else Except.ok (mset store taskId { t with status := TaskStatus.cancelled })

/-- Whether an effect is the non-monotonic-progress warning. -/
def Effect.isWarn : Effect → Bool
  | .warnLog => true
  | _ => false

def c5token : JsKey := JsKey.str "t"

def c5s0 : HubState :=
  { connections := []
    activeProgressTokens := [(c5token, { serverName := "a", hasCallback := true, lastProgress := 0 })]
    pendingRequests := []
    activeTasks := []
    resourceSubscriptions := []
    fileWatchers := []
    sanitizedNameRegistry := []
    isDisposed := false
    providerAlive := false }

def c5ev5 : ProgressEvent :=
  { progressToken := c5token, progress := 5, total := none, message := none }

def c5ev3 : ProgressEvent :=
  { progressToken := c5token, progress := 3, total := none, message := none }

def c5s1 : HubState := (handleProgressNotification c5s0 c5ev5).1

def c5d1 : ProgressTokenData := { serverName := "a", hasCallback := true, lastProgress := 5 }

def c6s : HubState :=
  { connections := []
    activeProgressTokens := []
    pendingRequests := [(JsKey.num 1, { serverName := "a" })]
    activeTasks := []
    resourceSubscriptions := []
    fileWatchers := []
    sanitizedNameRegistry := []
    isDisposed := false
    providerAlive := true }

def c6ev : CancelledEvent := { requestId := some (JsKey.num 9), reason := some "late" }

def c7conn : McpConnection :=
  { kind := ConnKind.connected 1 false
    server :=
      { name := "a", config := { disabled := none }, status := ConnStatus.connected,
        disabled := none, source := Source.global, errorHistory := [], error := "" } }

def c7s : HubState :=
  { connections := [c7conn]
    activeProgressTokens := []
    pendingRequests := []
    activeTasks := []
    resourceSubscriptions := []
    fileWatchers := []
    sanitizedNameRegistry := []
    isDisposed := false
    providerAlive := true }

def c4task (st : TaskStatus) : ReceiverTask := { status := st, createdAt := 0, ttl := some 50 }

def c8conn : McpConnection :=
  { kind := ConnKind.connected 1 true
    server :=
      { name := "a", config := { disabled := none }, status := ConnStatus.connected,
        disabled := none, source := Source.global, errorHistory := [], error := "" } }

def c8td : TaskData :=
  { serverName := "a", source := some Source.global, status := TaskStatus.working,
    progressToken := some (JsKey.str "t"), pollInterval := some 10, message := none,
    createdAt := 0, updatedAt := 0 }

def c8s : HubState :=
  { connections := [c8conn]
    activeProgressTokens := [(JsKey.str "t", { serverName := "a", hasCallback := true, lastProgress := 0 })]
    pendingRequests := []
    activeTasks := [("k", c8td)]
    resourceSubscriptions := []
    fileWatchers := []
    sanitizedNameRegistry := []
    isDisposed := false
    providerAlive := false }

def c8desc (st : TaskStatus) : TaskDescriptor :=
  { taskId := "k", status := st, statusMessage := none, pollInterval := some 10, ttl := none }

def c8polls : List (RemoteOutcome GetTaskReply) :=
  [RemoteOutcome.ok { task := some (c8desc TaskStatus.working) },
   RemoteOutcome.ok { task := some (c8desc TaskStatus.working) },
   RemoteOutcome.ok { task := some (c8desc TaskStatus.completed) }]

def c1td : TaskData :=
  { serverName := "a", source := some Source.global, status := TaskStatus.working,
    progressToken := some (JsKey.str "t"), pollInterval := none, message := none,
    createdAt := 0, updatedAt := 0 }

def c1s : HubState :=
  { connections :=
      [{ kind := ConnKind.connected 1 true
         server :=
           { name := "a", config := { disabled := none }, status := ConnStatus.connected,
             disabled := none, source := Source.global, errorHistory := [], error := "" } }]
    activeProgressTokens := [(JsKey.str "t", { serverName := "a", hasCallback := false, lastProgress := 0 })]
    pendingRequests := [(JsKey.num 1, { serverName := "a" })]
    activeTasks := [("k", c1td)]
    resourceSubscriptions := []
    fileWatchers := []
    sanitizedNameRegistry := []
    isDisposed := false
    providerAlive := false }

def c2td : TaskData :=
  { serverName := "a", source := some Source.global, status := TaskStatus.completed,
    progressToken := none, pollInterval := none, message := none,
    createdAt := 0, updatedAt := 0 }

def c2conn : McpConnection :=
  { kind := ConnKind.connected 1 true
    server :=
      { name := "a", config := { disabled := none }, status := ConnStatus.connected,
        disabled := none, source := Source.global, errorHistory := [], error := "" } }

def c2s : HubState :=
  { connections := [c2conn]
    activeProgressTokens := []
    pendingRequests := []
    activeTasks := [("k", c2td)]
    resourceSubscriptions := []
    fileWatchers := []
    sanitizedNameRegistry := []
    isDisposed := false
    providerAlive := false }

def c3env : ConnectEnv :=
  { mcpEnabled := true, transportOk := true, transportId := 7, connectErr := some "boom",
    tasksCapability := false }

def c3s : HubState :=
  { connections := []
    activeProgressTokens := []
    pendingRequests := []
    activeTasks := []
    resourceSubscriptions := []
    fileWatchers := []
    sanitizedNameRegistry := []
    isDisposed := false
    providerAlive := false }

/-- The registry key of a connection. -/
def connKey (c : McpConnection) : String × Source := (c.server.name, c.server.source)

/-- At most one connection per (name, source) pair. -/
def UniqueConnKeys (l : List McpConnection) : Prop := (l.map connKey).Nodup

theorem mget_mset_self {α β : Type} [DecidableEq α] (m : List (α × β)) (k : α) (v : β) :
    mget (mset m k v) k = some v := by
  induction m with
  | nil => simp [mset, mget]
  | cons p rest ih =>
      obtain ⟨a, b⟩ := p
      by_cases h : a = k
      · simp [mset, mget, h]
      · simp [mset, mget, h, ih]

theorem mget_mdel_self {α β : Type} [DecidableEq α] (m : List (α × β)) (k : α) :
    mget (mdel m k) k = none := by
  induction m with
  | nil => rfl
  | cons p rest ih =>
      obtain ⟨a, b⟩ := p
      by_cases h : a = k
      · simpa [mdel, List.filter, h] using ih
      · simpa [mdel, List.filter, mget, h] using ih

/-- Claim C5: on a known progress token, an inbound progress event whose value
is strictly below the recorded last value logs the regression warning exactly
once, still overwrites the stored last-progress value with the reported one,
and still invokes the registered observer with the raw reported values. -/
theorem C5_progress_regression_warns_overwrites_and_notifies
    (s : HubState) (ev : ProgressEvent) (d : ProgressTokenData)
    (hknown : mget s.activeProgressTokens ev.progressToken = some d)
    (hcb : d.hasCallback = true)
    (hlt : ev.progress < d.lastProgress) :
    mget (handleProgressNotification s ev).1.activeProgressTokens ev.progressToken =
      some { d with lastProgress := ev.progress } ∧
    ((handleProgressNotification s ev).2.filter Effect.isWarn).length = 1 ∧
    (handleProgressNotification s ev).2.filter Effect.isProgressCallback =
      [Effect.progressCallback ev.progress ev.total ev.message] := by
  unfold handleProgressNotification
  rw [hknown]
  cases hp : s.providerAlive <;>
    simp [hlt, hcb, hp, mget_mset_self, Effect.isWarn, Effect.isProgressCallback]

/-- Witness for C5: delivering progress 5 then progress 3 on a registered
token invokes the observer with both raw values in order, ends with stored
last-progress 3, and logs the regression warning once (on the second event
only). -/
theorem C5_progress_regression_witness :
    mget (handleProgressNotification c5s1 c5ev3).1.activeProgressTokens c5ev3.progressToken =
      some { c5d1 with lastProgress := c5ev3.progress } ∧
    ((handleProgressNotification c5s0 c5ev5).2.filter Effect.isProgressCallback ++
        (handleProgressNotification c5s1 c5ev3).2.filter Effect.isProgressCallback =
      [Effect.progressCallback 5 none none, Effect.progressCallback 3 none none]) ∧
    ((handleProgressNotification c5s0 c5ev5).2.filter Effect.isWarn).length = 0 ∧
    ((handleProgressNotification c5s1 c5ev3).2.filter Effect.isWarn).length = 1 :=
  ⟨(C5_progress_regression_warns_overwrites_and_notifies c5s1 c5ev3 c5d1 (by decide)
      (by decide) (by decide)).1,
   by decide, by decide,
   (C5_progress_regression_warns_overwrites_and_notifies c5s1 c5ev3 c5d1 (by decide)
      (by decide) (by decide)).2.1⟩

/-- Claim C6: an inbound cancellation whose correlation id has no entry in the
pending-request map returns normally with a debug log only, leaving the whole
hub state (pending requests, progress tokens, tasks, and everything else)
unchanged and aborting nothing. -/
theorem C6_unknown_cancellation_is_noop (s : HubState) (ev : CancelledEvent) (rid : JsKey)
    (hrid : ev.requestId = some rid)
    (hunknown : mget s.pendingRequests rid = none) :
    handleCancelledNotification s ev = (s, [Effect.debugLog]) := by
  unfold handleCancelledNotification
  rw [hrid]
  simp [hunknown]

/-- Witness for C6: cancelling the unknown correlation id 9 while request 1 is
pending returns normally with only a debug log and no state change. -/
theorem C6_unknown_cancellation_witness :
    handleCancelledNotification c6s c6ev = (c6s, [Effect.debugLog]) :=
  C6_unknown_cancellation_is_noop c6s c6ev (JsKey.num 9) (by decide) (by decide)

/-- Claim C7: calling a tool as a task against a peer whose negotiated
capabilities declare no task support performs a plain tools/call and returns
the plain result, with the hub state unchanged: no task record is created and
no progress token is issued. -/
theorem C7_no_task_capability_falls_back_to_plain_call
    (s : HubState) (serverName : String) (source : Option Source)
    (hasCb : Bool) (newToken : String) (now : Int) (raw : RawCallResult)
    (conn : McpConnection) (tid : Nat)
    (hfind : findConnection s.connections serverName source = some conn)
    (hkind : conn.kind = ConnKind.connected tid false) :
    callToolAsTask s serverName source hasCb newToken now (RemoteOutcome.ok raw) =
      ({ state := s, effects := [Effect.remoteCall "tools/call"], thrown := none },
       some (CallToolReply.result raw.payload)) := by
  unfold callToolAsTask
  rw [hfind]
  simp [hkind]

/-- Witness for C7: a call against the task-unaware server a returns the plain
payload with the state unchanged. -/
theorem C7_fallback_witness :
    callToolAsTask c7s "a" (some Source.global) true "u" 0
        (RemoteOutcome.ok { task := none, payload := "r" }) =
      ({ state := c7s, effects := [Effect.remoteCall "tools/call"], thrown := none },
       some (CallToolReply.result "r")) :=
  C7_no_task_capability_falls_back_to_plain_call c7s "a" (some Source.global) true "u" 0
    { task := none, payload := "r" } c7conn 1 (by decide) (by decide)

/-- Claim C4: a receiver-role task created at time 0 with a 50ms time-to-live
and never retrieved is purged by the TTL timer independent of its status, so
any get, result or cancel issued at a time past the TTL fails with the
distinct task-not-found error. -/
theorem C4_ttl_purge_yields_task_not_found (st : TaskStatus) (t : Int) (h : (50 : Int) < t) :
    receiverGet [("k", c4task st)] t "k" = Except.error ReceiverErr.taskNotFound ∧
    receiverResult [("k", c4task st)] t "k" = Except.error ReceiverErr.taskNotFound ∧
    receiverCancel [("k", c4task st)] t "k" = Except.error ReceiverErr.taskNotFound := by
  have hex : receiverExpired (c4task st) t = true := by
    simp only [receiverExpired, c4task]
    simpa using h
  have hlook : receiverLookup [("k", c4task st)] t "k" = none := by
    simp [receiverLookup, mget, hex]
  exact ⟨by simp [receiverGet, hlook], by simp [receiverResult, hlook],
    by simp [receiverCancel, hlook]⟩

/-- Witness for C4: a get at t = 51 for the task created with ttl = 50 (and
status still working) returns the task-not-found error, as do result and
cancel. -/
theorem C4_ttl_purge_witness :
    (50 : Int) < 51 ∧
    (receiverGet [("k", c4task TaskStatus.working)] 51 "k" =
        Except.error ReceiverErr.taskNotFound ∧
      receiverResult [("k", c4task TaskStatus.working)] 51 "k" =
        Except.error ReceiverErr.taskNotFound ∧
      receiverCancel [("k", c4task TaskStatus.working)] 51 "k" =
        Except.error ReceiverErr.taskNotFound) :=
  ⟨by decide, C4_ttl_purge_yields_task_not_found TaskStatus.working 51 (by decide)⟩

/-- Claim C8: a successful result retrieval returns the payload, removes the
local task record and releases its progress token; and the poll loop fetches
the deferred payload exactly once when the task completes (observed here after
3 polls) while failed and cancelled tasks surface as errors instead of a
payload. -/
theorem C8_result_fetched_once_and_terminal_polls_error
    (s : HubState) (serverName taskId : String) (source : Option Source) (r : String)
    (conn : McpConnection) (tid : Nat) (cap : Bool) (td : TaskData)
    (hfind : findConnection s.connections serverName source = some conn)
    (hkind : conn.kind = ConnKind.connected tid cap)
    (htrack : mget s.activeTasks taskId = some td) :
    ((getTaskResult s serverName taskId source (RemoteOutcome.ok r)).2 = some r ∧
      mget (getTaskResult s serverName taskId source
        (RemoteOutcome.ok r)).1.state.activeTasks taskId = none ∧
      (∀ tok, td.progressToken = some tok →
        mget (getTaskResult s serverName taskId source
          (RemoteOutcome.ok r)).1.state.activeProgressTokens tok = none)) ∧
    ((pollTaskUntilComplete c8s "a" "k" (some Source.global) 0 false c8polls
        (RemoteOutcome.ok "payload")).2 = some "payload" ∧
      ((pollTaskUntilComplete c8s "a" "k" (some Source.global) 0 false c8polls
        (RemoteOutcome.ok "payload")).1.effects.filter
          (fun e => decide (e = Effect.remoteCall "tasks/result"))).length = 1 ∧
      mget (pollTaskUntilComplete c8s "a" "k" (some Source.global) 0 false c8polls
        (RemoteOutcome.ok "payload")).1.state.activeTasks "k" = none ∧
      mget (pollTaskUntilComplete c8s "a" "k" (some Source.global) 0 false c8polls
        (RemoteOutcome.ok "payload")).1.state.activeProgressTokens (JsKey.str "t") = none) ∧
    ((pollTaskUntilComplete c8s "a" "k" (some Source.global) 0 false
        [RemoteOutcome.ok { task := some (c8desc TaskStatus.failed) }]
        (RemoteOutcome.ok "payload")).1.thrown = some "task failed" ∧
      (pollTaskUntilComplete c8s "a" "k" (some Source.global) 0 false
        [RemoteOutcome.ok { task := some (c8desc TaskStatus.failed) }]
        (RemoteOutcome.ok "payload")).2 = none ∧
      (pollTaskUntilComplete c8s "a" "k" (some Source.global) 0 false
        [RemoteOutcome.ok { task := some (c8desc TaskStatus.cancelled) }]
        (RemoteOutcome.ok "payload")).1.thrown = some "task was cancelled" ∧
      (pollTaskUntilComplete c8s "a" "k" (some Source.global) 0 false
        [RemoteOutcome.ok { task := some (c8desc TaskStatus.cancelled) }]
        (RemoteOutcome.ok "payload")).2 = none) := by
  refine ⟨?_, by decide, by decide⟩
  unfold getTaskResult
  rw [hfind]
  cases htok : td.progressToken with
  | none =>
      simp [hkind, htrack, htok, mget_mdel_self]
  | some tok0 =>
      simp only [hkind, htrack, htok]
      refine ⟨by simp, by simp [mget_mdel_self], ?_⟩
      intro tok htokeq
      obtain rfl : tok0 = tok := Option.some.inj htokeq
      simp only [clearProgressToken]
      exact mget_mdel_self s.activeProgressTokens tok0

/-- Witness for C8: retrieving the result of the tracked completed-capable
task k returns the payload, and afterwards both the task record and its
progress token are gone. -/
theorem C8_result_retrieval_witness :
    (getTaskResult c8s "a" "k" (some Source.global) (RemoteOutcome.ok "payload")).2 =
      some "payload" ∧
    mget (getTaskResult c8s "a" "k" (some Source.global)
      (RemoteOutcome.ok "payload")).1.state.activeTasks "k" = none ∧
    mget (getTaskResult c8s "a" "k" (some Source.global)
      (RemoteOutcome.ok "payload")).1.state.activeProgressTokens (JsKey.str "t") = none :=
  have h := C8_result_fetched_once_and_terminal_polls_error c8s "a" "k" (some Source.global)
    "payload" c8conn 1 true c8td (by decide) (by decide) (by decide)
  ⟨h.1.1, h.1.2.1, h.1.2.2 (JsKey.str "t") (by decide)⟩

theorem deleteConnection_isDisposed (sanitize : String → String) (s : HubState) (name : String)
    (source : Option Source) :
    (deleteConnection sanitize s name source).1.isDisposed = s.isDisposed := rfl

theorem foldl_disposeStep_isDisposed (sanitize : String → String) :
    ∀ (l : List McpConnection) (acc : HubState × List Effect),
      (l.foldl (disposeStep sanitize) acc).1.isDisposed = acc.1.isDisposed := by
  intro l
  induction l with
  | nil => intro acc; rfl
  | cons c rest ih =>
      intro acc
      rw [List.foldl_cons, ih]
      exact deleteConnection_isDisposed sanitize acc.1 c.server.name (some c.server.source)

theorem dispose_of_disposed (sanitize : String → String) (s : HubState)
    (h : s.isDisposed = true) : dispose sanitize s = (s, []) := by
  unfold dispose
  simp [h]

/-- Claim C10: dispose is idempotent: the first call leaves the isDisposed
flag set, and a second call returns immediately with no effects and no state
change, so two calls leave the hub exactly as one does. -/
theorem C10_dispose_idempotent (sanitize : String → String) (s : HubState) :
    (dispose sanitize s).1.isDisposed = true ∧
    dispose sanitize (dispose sanitize s).1 = ((dispose sanitize s).1, []) := by
  have h1 : (dispose sanitize s).1.isDisposed = true := by
    unfold dispose
    by_cases hd : s.isDisposed
    · simp [hd]
    · simp [hd, foldl_disposeStep_isDisposed]
  exact ⟨h1, dispose_of_disposed sanitize (dispose sanitize s).1 h1⟩

theorem filterMap_close_all_isClose (l : List McpConnection) :
    (l.filterMap (fun c =>
      match c.kind with
      | ConnKind.connected tid _ => some (Effect.closeTransport tid)
      | ConnKind.disconnected => none)).all Effect.isCloseTransport = true := by
  induction l with
  | nil => rfl
  | cons c rest ih =>
      cases hk : c.kind <;> simp [List.filterMap_cons, hk, Effect.isCloseTransport, ih]

/-- Claim C1 (amended): deleteConnection closes the transport of every
matching connected entry and removes the matching registry entries, but it
leaves the pending-request, active-task and progress-token maps entirely
unchanged: no pending request is aborted, no task is marked failed, no
progress token is released, and its whole effect trace is transport closes
only. -/
theorem C1_delete_connection_leaves_trackers_unchanged
    (sanitize : String → String) (s : HubState) (name : String) (source : Option Source) :
    (deleteConnection sanitize s name source).1.pendingRequests = s.pendingRequests ∧
    (deleteConnection sanitize s name source).1.activeTasks = s.activeTasks ∧
    (deleteConnection sanitize s name source).1.activeProgressTokens =
      s.activeProgressTokens ∧
    (deleteConnection sanitize s name source).2.all Effect.isCloseTransport = true :=
  ⟨rfl, rfl, rfl, filterMap_close_all_isClose _⟩

/-- Counterexample to claim C1 as stated: deleting the only connection named a
closes its transport and empties the registry, yet the pending request, the
still-working task and the progress token owned by a all survive in their
maps (and nothing was aborted), so entries referencing the deleted connection
remain. -/
theorem C1_trackers_survive_delete_cex :
    (deleteConnection id c1s "a" (some Source.global)).1.connections = [] ∧
    mget (deleteConnection id c1s "a" (some Source.global)).1.pendingRequests (JsKey.num 1) =
      some { serverName := "a" } ∧
    (mget (deleteConnection id c1s "a" (some Source.global)).1.activeTasks "k").map
      (fun td => td.status) = some TaskStatus.working ∧
    mget (deleteConnection id c1s "a" (some Source.global)).1.activeProgressTokens
      (JsKey.str "t") = some { serverName := "a", hasCallback := false, lastProgress := 0 } ∧
    (deleteConnection id c1s "a" (some Source.global)).2.filter Effect.isAbortRequest = [] := by
  decide

/-- Claim C2 (amended): on a successful tasks/cancel round trip, cancelTask
overwrites the stored status of a tracked task with cancelled whatever the
previous stored status was, terminal statuses included. -/
theorem C2_cancel_overwrites_stored_status
    (s : HubState) (serverName taskId : String) (source : Option Source) (now : Int)
    (reply : GetTaskReply) (conn : McpConnection) (tid : Nat) (cap : Bool) (td : TaskData)
    (hfind : findConnection s.connections serverName source = some conn)
    (hkind : conn.kind = ConnKind.connected tid cap)
    (htrack : mget s.activeTasks taskId = some td) :
    mget (cancelTask s serverName taskId source now
      (RemoteOutcome.ok reply)).1.state.activeTasks taskId =
      some { td with status := TaskStatus.cancelled, updatedAt := now } := by
  unfold cancelTask
  rw [hfind]
  simp [hkind, htrack, mget_mset_self]

/-- Counterexample to claim C2 as stated: the task k is stored with the
terminal status completed, yet a cancelTask whose round trip succeeds changes
the stored status to cancelled, and even a plain task-status notification
carrying working drags the stored status back to working, so a terminal
stored status does not stay unchanged under subsequent operations. -/
theorem C2_completed_task_cancelled_cex :
    (mget c2s.activeTasks "k").map (fun td => td.status) = some TaskStatus.completed ∧
    (mget (cancelTask c2s "a" "k" (some Source.global) 5
      (RemoteOutcome.ok { task := none })).1.state.activeTasks "k").map (fun td => td.status) =
      some TaskStatus.cancelled ∧
    (mget (handleTaskStatusNotification c2s 7
      { taskId := "k", status := TaskStatus.working, statusMessage := none,
        pollInterval := none }).1.activeTasks "k").map (fun td => td.status) =
      some TaskStatus.working ∧
    TaskStatus.cancelled ≠ TaskStatus.completed := by
  decide

/-- Witness for C2 (amended): cancelling the task stored as completed rewrites
the stored record to cancelled with the new update time. -/
theorem C2_cancel_witness :
    mget (cancelTask c2s "a" "k" (some Source.global) 5
      (RemoteOutcome.ok { task := none })).1.state.activeTasks "k" =
      some { c2td with status := TaskStatus.cancelled, updatedAt := 5 } :=
  C2_cancel_overwrites_stored_status c2s "a" "k" (some Source.global) 5 { task := none }
    c2conn 1 true c2td (by decide) (by decide) (by decide)

theorem setupFileWatcher_connections (s : HubState) (n : String) :
    (setupFileWatcher s n).connections = s.connections := by
  unfold setupFileWatcher
  split <;> rfl

theorem updateFirst_append_singleton {α : Type} (p : α → Bool) (f : α → α) (a : α) :
    ∀ (l : List α), (∀ x ∈ l, p x = false) →
      updateFirst p f (l ++ [a]) = l ++ [if p a then f a else a] := by
  intro l
  induction l with
  | nil =>
      intro _
      cases hpa : p a <;> simp [updateFirst, hpa]
  | cons x xs ih =>
      intro h
      have hx : p x = false := h x (by simp)
      have hrest := ih (fun y hy => h y (by simp [hy]))
      simp [updateFirst, hx, hrest]

theorem connMatches_false_of_deleteKeep (name : String) (src : Source) (c : McpConnection)
    (h : deleteKeep name (some src) c = true) : connMatches name src c = false := by
  unfold deleteKeep at h
  unfold connMatches
  by_cases hn : c.server.name = name
  · rw [if_pos hn] at h
    simp only [decide_eq_true_eq] at h
    simp [hn, h]
  · simp [hn]

/-- Counterexample to claim C3 as stated: a connect whose handshake fails
rethrows the error and records the entry as disconnected with the error in
its history, but the entry still holds the acquired transport (kind connected
with transport 7) and the effect trace contains no transport close, so the
transport is not released on this exit path. -/
theorem C3_transport_not_released_cex :
    (connectToServer id c3s "a" { disabled := none } Source.global c3env 0).thrown =
      some "boom" ∧
    (connectToServer id c3s "a" { disabled := none } Source.global c3env 0).state.connections =
      [{ kind := ConnKind.connected 7 false
         server :=
           { name := "a", config := { disabled := none }, status := ConnStatus.disconnected,
             disabled := none, source := Source.global,
             errorHistory := [{ message := "boom", timestamp := 0, level := LogLevel.error }],
             error := "boom" } }] ∧
    (connectToServer id c3s "a" { disabled := none } Source.global c3env 0).effects.filter
      Effect.isCloseTransport = [] := by
  decide

/-- Claim C3 (amended): when the handshake step of connectToServer fails, the
error is rethrown and the connection is recorded with status disconnected and
the (truncated) error appended to its history, but the entry keeps holding the
acquired transport: connect itself closes nothing beyond the initial deletion
of the previous connection. -/
theorem C3_handshake_failure_recorded_but_transport_kept
    (sanitize : String → String) (s : HubState) (name : String) (cfg : ServerConfig)
    (source : Source) (env : ConnectEnv) (now : Int) (e : String)
    (hmcp : env.mcpEnabled = true) (hdis : ¬cfg.disabled = some true)
    (htr : env.transportOk = true) (herr : env.connectErr = some e) :
    (connectToServer sanitize s name cfg source env now).thrown = some e ∧
    (connectToServer sanitize s name cfg source env now).state.connections.getLast? =
      some
        { kind := ConnKind.connected env.transportId env.tasksCapability
          server :=
            { name := name, config := cfg, status := ConnStatus.disconnected,
              disabled := cfg.disabled, source := source,
              errorHistory :=
                [{ message := truncateError e, timestamp := now, level := LogLevel.error }],
              error := truncateError e } } ∧
    (connectToServer sanitize s name cfg source env now).effects.filter
      Effect.isCloseTransport =
      (deleteConnection sanitize s name (some source)).2.filter Effect.isCloseTransport := by
  have hconns : (deleteConnection sanitize s name (some source)).1.connections =
      List.filter (deleteKeep name (some source)) s.connections := rfl
  have hfilter : ∀ x ∈ (deleteConnection sanitize s name (some source)).1.connections,
      connMatches name source x = false := by
    intro x hx
    rw [hconns] at hx
    exact connMatches_false_of_deleteKeep name source x (List.mem_filter.mp hx).2
  unfold connectToServer
  rw [hmcp, htr, herr]
  rw [if_neg (by simp : ¬(true = false)), if_neg hdis, if_neg (by simp : ¬(true = false))]
  dsimp only
  rw [setupFileWatcher_connections]
  dsimp only
  rw [updateFirst_append_singleton _ _ _ _ hfilter]
  rw [if_pos (by simp [connMatches] : connMatches name source
    { kind := ConnKind.connected env.transportId env.tasksCapability
      server :=
        { name := name, config := cfg, status := ConnStatus.connecting,
          disabled := cfg.disabled, source := source, errorHistory := [], error := "" } } = true)]
  refine ⟨rfl, ?_, ?_⟩
  · rw [List.getLast?_append_cons]
    simp [appendErrorMessage]
  · simp [List.filter_append, Effect.isCloseTransport]

/-- Witness for the amended C3: the concrete handshake failure of the
counterexample state satisfies the amended statement. -/
theorem C3_handshake_failure_witness :
    (connectToServer id c3s "a" { disabled := none } Source.global c3env 0).thrown =
      some "boom" ∧
    (connectToServer id c3s "a" { disabled := none } Source.global c3env 0).state.connections.getLast? =
      some
        { kind := ConnKind.connected 7 false
          server :=
            { name := "a", config := { disabled := none }, status := ConnStatus.disconnected,
              disabled := none, source := Source.global,
              errorHistory :=
                [{ message := truncateError "boom", timestamp := 0, level := LogLevel.error }],
              error := truncateError "boom" } } ∧
    (connectToServer id c3s "a" { disabled := none } Source.global c3env 0).effects.filter
      Effect.isCloseTransport =
      (deleteConnection id c3s "a" (some Source.global)).2.filter Effect.isCloseTransport :=
  C3_handshake_failure_recorded_but_transport_kept id c3s "a" { disabled := none }
    Source.global c3env 0 "boom" (by decide) (by decide) (by decide) (by decide)

theorem uniqueConnKeys_filter (p : McpConnection → Bool) (l : List McpConnection)
    (h : UniqueConnKeys l) : UniqueConnKeys (l.filter p) :=
  List.Nodup.sublist (List.Sublist.map connKey (List.filter_sublist l)) h

theorem updateFirst_map_key (p : McpConnection → Bool) (f : McpConnection → McpConnection)
    (hf : ∀ x, connKey (f x) = connKey x) :
    ∀ l : List McpConnection, (updateFirst p f l).map connKey = l.map connKey := by
  intro l
  induction l with
  | nil => rfl
  | cons x xs ih =>
      by_cases hp : p x
      · simp [updateFirst, hp, hf]
      · simp [updateFirst, hp, ih]

theorem uniqueConnKeys_updateFirst (p : McpConnection → Bool) (f : McpConnection → McpConnection)
    (hf : ∀ x, connKey (f x) = connKey x) (l : List McpConnection)
    (h : UniqueConnKeys l) : UniqueConnKeys (updateFirst p f l) := by
  unfold UniqueConnKeys
  rw [updateFirst_map_key p f hf]
  exact h

theorem uniqueConnKeys_append_one (l : List McpConnection) (a : McpConnection)
    (h : UniqueConnKeys l) (hnot : ∀ x ∈ l, ¬connKey x = connKey a) :
    UniqueConnKeys (l ++ [a]) := by
  unfold UniqueConnKeys
  rw [List.map_append]
  refine List.Nodup.append h (List.nodup_singleton _) ?_
  intro k hk hk2
  simp only [List.map_cons, List.map_nil, List.mem_singleton] at hk2
  obtain ⟨x, hx, rfl⟩ := List.mem_map.mp hk
  exact hnot x hx hk2

theorem connKey_ne_of_deleteKeep (name : String) (src : Source) (c : McpConnection)
    (h : deleteKeep name (some src) c = true) : ¬connKey c = (name, src) := by
  have hcm := connMatches_false_of_deleteKeep name src c h
  unfold connMatches at hcm
  simp only [decide_eq_false_iff_not] at hcm
  unfold connKey
  intro hk
  rw [Prod.ext_iff] at hk
  exact hcm ⟨hk.1, hk.2⟩

theorem deleteConnection_connections (sanitize : String → String) (s : HubState)
    (name : String) (source : Option Source) :
    (deleteConnection sanitize s name source).1.connections =
      List.filter (deleteKeep name source) s.connections := rfl

theorem uniq_deleteConnection (sanitize : String → String) (s : HubState) (name : String)
    (source : Option Source) (h : UniqueConnKeys s.connections) :
    UniqueConnKeys (deleteConnection sanitize s name source).1.connections := by
  rw [deleteConnection_connections]
  exact uniqueConnKeys_filter _ _ h

theorem uniq_connectToServer (sanitize : String → String) (s : HubState) (name : String)
    (cfg : ServerConfig) (source : Source) (env : ConnectEnv) (now : Int)
    (h : UniqueConnKeys s.connections) :
    UniqueConnKeys (connectToServer sanitize s name cfg source env now).state.connections := by
  have hdel : UniqueConnKeys (deleteConnection sanitize s name (some source)).1.connections :=
    uniq_deleteConnection sanitize s name (some source) h
  have hnot : ∀ x ∈ (deleteConnection sanitize s name (some source)).1.connections,
      ¬connKey x = (name, source) := by
    intro x hx
    rw [deleteConnection_connections] at hx
    exact connKey_ne_of_deleteKeep name source x (List.mem_filter.mp hx).2
  unfold connectToServer
  by_cases h1 : env.mcpEnabled = false
  · rw [if_pos h1]
    dsimp only
    exact uniqueConnKeys_append_one _ (mkPlaceholderConn name cfg source cfg.disabled) hdel hnot
  · rw [if_neg h1]
    by_cases h2 : cfg.disabled = some true
    · rw [if_pos h2]
      dsimp only
      exact uniqueConnKeys_append_one _ (mkPlaceholderConn name cfg source (some true)) hdel hnot
    · rw [if_neg h2]
      by_cases h3 : env.transportOk = false
      · rw [if_pos h3]
        dsimp only
        rw [setupFileWatcher_connections]
        exact hdel
      · rw [if_neg h3]
        cases henv : env.connectErr with
        | some e =>
            dsimp only
            rw [setupFileWatcher_connections]
            try dsimp only
            exact uniqueConnKeys_updateFirst (connMatches name source)
              (fun c =>
                let srv1 := { c.server with status := ConnStatus.disconnected }
                { c with server := appendErrorMessage srv1 e LogLevel.error now })
              (by intro x; rfl) _
              (uniqueConnKeys_append_one _
                { kind := ConnKind.connected env.transportId env.tasksCapability
                  server :=
                    { name := name, config := cfg, status := ConnStatus.connecting,
                      disabled := cfg.disabled, source := source, errorHistory := [],
                      error := "" } } hdel hnot)
        | none =>
            dsimp only
            rw [setupFileWatcher_connections]
            try dsimp only
            exact uniqueConnKeys_append_one _
              { kind := ConnKind.connected env.transportId env.tasksCapability
                server :=
                  { name := name, config := cfg, status := ConnStatus.connected,
                    disabled := cfg.disabled, source := source, errorHistory := [],
                    error := "" } } hdel hnot

theorem foldl_preserves_uniq {β : Type}
    (step : (HubState × List Effect) → β → (HubState × List Effect))
    (hstep : ∀ acc b, UniqueConnKeys acc.1.connections →
      UniqueConnKeys (step acc b).1.connections) :
    ∀ (l : List β) (acc : HubState × List Effect),
      UniqueConnKeys acc.1.connections → UniqueConnKeys (l.foldl step acc).1.connections := by
  intro l
  induction l with
  | nil => intro acc h; exact h
  | cons b rest ih =>
      intro acc h
      rw [List.foldl_cons]
      exact ih _ (hstep acc b h)

theorem uniq_updateDelStep (sanitize : String → String) (source : Source)
    (newNames : List String) (acc : HubState × List Effect) (n : String)
    (h : UniqueConnKeys acc.1.connections) :
    UniqueConnKeys (updateDelStep sanitize source newNames acc n).1.connections := by
  unfold updateDelStep
  by_cases hc : newNames.contains n
  · rw [if_pos hc]
    exact h
  · rw [if_neg hc]
    try dsimp only
    exact uniq_deleteConnection sanitize acc.1 n (some source) h

theorem uniq_updateStep (sanitize : String → String) (source : Source) (now : Int)
    (acc : HubState × List Effect) (e : UpdateEntry)
    (h : UniqueConnKeys acc.1.connections) :
    UniqueConnKeys (updateStep sanitize source now acc e).1.connections := by
  unfold updateStep
  by_cases hv : e.valid = false
  · rw [if_pos hv]
    exact h
  · rw [if_neg hv]
    cases hf : findConnection acc.1.connections e.name (some source) with
    | none =>
        try dsimp only
        by_cases hd : e.cfg.disabled = some true
        · rw [if_pos hd]
          try dsimp only
          exact uniq_connectToServer sanitize acc.1 e.name e.cfg source e.env now h
        · rw [if_neg hd]
          try dsimp only
          apply uniq_connectToServer
          rw [setupFileWatcher_connections]
          exact h
    | some conn =>
        try dsimp only
        by_cases hcfg : conn.server.config = e.cfg
        · rw [if_pos hcfg]
          exact h
        · rw [if_neg hcfg]
          try dsimp only
          by_cases hd : e.cfg.disabled = some true
          · rw [if_pos hd]
            try dsimp only
            apply uniq_connectToServer
            exact uniq_deleteConnection sanitize acc.1 e.name (some source) h
          · rw [if_neg hd]
            try dsimp only
            apply uniq_connectToServer
            apply uniq_deleteConnection
            rw [setupFileWatcher_connections]
            exact h

theorem uniq_updateServerConnections (sanitize : String → String) (s : HubState)
    (entries : List UpdateEntry) (source : Source) (now : Int)
    (h : UniqueConnKeys s.connections) :
    UniqueConnKeys (updateServerConnections sanitize s entries source now).1.connections := by
  unfold updateServerConnections
  dsimp only
  apply foldl_preserves_uniq _ (fun acc b hb => uniq_updateStep sanitize source now acc b hb)
  apply foldl_preserves_uniq _
    (fun acc n hn => uniq_updateDelStep sanitize source _ acc n hn)
  exact h

theorem uniq_restartConnection (sanitize : String → String) (s : HubState)
    (serverName : String) (source : Option Source) (mcpEnabled validateOk : Bool)
    (env : ConnectEnv) (now : Int) (h : UniqueConnKeys s.connections) :
    UniqueConnKeys (restartConnection sanitize s serverName source mcpEnabled validateOk
      env now).1.connections := by
  unfold restartConnection
  by_cases hm : mcpEnabled = false
  · rw [if_pos hm]
    exact h
  · rw [if_neg hm]
    cases hf : findConnection s.connections serverName source with
    | none => exact h
    | some conn =>
        dsimp only
        have h1 : UniqueConnKeys (updateFirst (fun c => decide (c = conn))
            (fun c =>
              { c with server :=
                  { c.server with status := ConnStatus.connecting, error := "" } })
            s.connections) :=
          uniqueConnKeys_updateFirst (fun c => decide (c = conn))
            (fun c =>
              { c with server :=
                  { c.server with status := ConnStatus.connecting, error := "" } })
            (by intro x; rfl) s.connections h
        by_cases hok : validateOk = false
        · rw [if_pos hok]
          dsimp only
          exact uniq_deleteConnection sanitize _ serverName (some conn.server.source) h1
        · rw [if_neg hok]
          dsimp only
          apply uniq_connectToServer
          exact uniq_deleteConnection sanitize _ serverName (some conn.server.source) h1

/-- Claim C9: the connections list holds at most one connection per (name,
source) pair: the invariant holds of the initial empty registry and each
public registry operation preserves it. -/
theorem C9_at_most_one_connection_per_key :
    UniqueConnKeys ([] : List McpConnection) ∧
    (∀ (sanitize : String → String) (s : HubState) (name : String) (source : Option Source),
      UniqueConnKeys s.connections →
      UniqueConnKeys (deleteConnection sanitize s name source).1.connections) ∧
    (∀ (sanitize : String → String) (s : HubState) (name : String) (cfg : ServerConfig)
        (source : Source) (env : ConnectEnv) (now : Int),
      UniqueConnKeys s.connections →
      UniqueConnKeys (connectToServer sanitize s name cfg source env now).state.connections) ∧
    (∀ (sanitize : String → String) (s : HubState) (entries : List UpdateEntry)
        (source : Source) (now : Int),
      UniqueConnKeys s.connections →
      UniqueConnKeys (updateServerConnections sanitize s entries source now).1.connections) ∧
    (∀ (sanitize : String → String) (s : HubState) (serverName : String)
        (source : Option Source) (mcpEnabled validateOk : Bool) (env : ConnectEnv) (now : Int),
      UniqueConnKeys s.connections →
      UniqueConnKeys (restartConnection sanitize s serverName source mcpEnabled validateOk
        env now).1.connections) :=
  ⟨List.nodup_nil, uniq_deleteConnection, uniq_connectToServer,
    uniq_updateServerConnections, uniq_restartConnection⟩

end RooMcp
